import Mathlib

/-!
Shallow embedding of the SplitSense ledger-analytics core
(`src/models/schemas.py`, `src/analytics/balances.py`,
`src/analytics/spending.py`, `src/analytics/advanced.py`,
`src/ingestion/normalizer.py`, `src/validation/verifier.py`).

Modelling conventions:
* Python `Decimal` amounts are embedded as `ℚ` (Decimal addition and
  subtraction at ledger scale are exact; division/quantize sites are
  modelled explicitly where the source has them).
* Python `float` quantities (anomaly statistics, frequencies) are also
  embedded as `ℚ`; the square root inside `statistics.stdev` is kept
  abstract as a function parameter, since no claim depends on its value.
* `datetime` values are embedded as calendar dates (year/month/day);
  the only temporal operations the analysed code performs are
  `strftime("%Y-%m")` month bucketing (embedded as `year*12 + month`,
  which is order- and equality-faithful for 4-digit years), date
  comparison and whole-day differences (embedded via a proleptic
  Gregorian day count, matching Python's `date` arithmetic).
* Python `dict`s are embedded as insertion-ordered association lists,
  which is exactly the iteration order Python guarantees.
* Display-only fields of the result objects (explanation strings,
  per-check reporting records) are omitted; every field an analysed
  claim mentions is present.
-/

namespace SplitSense

/-- Calendar date (UTC).  The analysed code only ever reads dates after
`DataNormalizer.normalize_timestamp` has forced them to UTC, so no
timezone component is modelled. -/
structure Date where
  year : ℕ
  month : ℕ
  day : ℕ
deriving DecidableEq, Repr

/-- Day count of a proleptic Gregorian date (days since 0000-03-01),
the arithmetic backing Python's `(d2 - d1).days` for whole dates. -/
def Date.toDays (d : Date) : ℕ :=
  let y := if d.month ≤ 2 then d.year - 1 else d.year
  let era := y / 400
  let yoe := y % 400
  let mp := if 2 < d.month then d.month - 3 else d.month + 9
  let doy := (153 * mp + 2) / 5 + d.day - 1
  let doe := yoe * 365 + yoe / 4 - yoe / 100 + doy
  era * 146097 + doe

/-- `expense.date.strftime("%Y-%m")` used as a grouping/sorting key:
distinct months give distinct keys and the numeric order coincides with
the lexicographic order of the zero-padded strings. -/
def Date.monthKey (d : Date) : ℕ := d.year * 12 + d.month

/-- One entry of `Expense.users` (`src/models/schemas.py` stores these as
raw dicts `{"user": {"id", "first_name", "last_name"}, "paid_share",
"owed_share"}`); a missing `"user"`/`"id"` key is `userId = none`, and the
share fields default to `"0"` exactly as `user_data.get(..., "0")` does. -/
structure UserShare where
  userId : Option Int
  first_name : String
  last_name : String
  paid_share : ℚ
  owed_share : ℚ
deriving DecidableEq, Repr

/-- `models.schemas.ExpenseRepayment`. -/
structure Repayment where
  from_user : Int
  to_user : Int
  amount : ℚ
  currency_code : String
deriving DecidableEq, Repr

/-- `models.schemas.User` (only the fields the analysed code reads). -/
structure User where
  id : Int
  first_name : String
  last_name : String
deriving DecidableEq, Repr

/-- `models.schemas.Expense`.  `created_by` and `receipt` are copied
through unread by every analysed component and are omitted. -/
structure Expense where
  id : Int
  group_id : Option Int
  description : String
  payment : Bool
  cost : ℚ
  currency_code : String
  date : Date
  users : List UserShare
  repayments : List Repayment
  category : Option String
  deleted_at : Option Date
deriving DecidableEq, Repr

/-- `models.schemas.Group` (fields the analysed code reads). -/
structure Group where
  id : Int
  name : String
  members : List User
deriving DecidableEq, Repr

/-! ### Python string primitives

Structural (kernel-computable) embeddings of the `str` methods the
analysed code uses: `.upper()`, `.lower()`, `.strip()`, `.split()` (on
whitespace runs, dropping empties) and `" ".join(...)`. -/

/-- `str.upper()` (the analysed inputs are ASCII currency codes and
descriptions, where `Char.toUpper` agrees with Python). -/
def pyUpper (s : String) : String := String.mk (s.data.map Char.toUpper)

/-- `str.lower()`. -/
def pyLower (s : String) : String := String.mk (s.data.map Char.toLower)

/-- `str.strip()`: drop leading and trailing whitespace. -/
def pyStrip (s : String) : String :=
  String.mk
    (((s.data.dropWhile Char.isWhitespace).reverse.dropWhile
      Char.isWhitespace).reverse)

/-- Split a character list at characters satisfying `p`. -/
def splitChars (p : Char → Bool) : List Char → List (List Char)
  | [] => [[]]
  | c :: t =>
      if p c then [] :: splitChars p t
      else
        match splitChars p t with
        | [] => [[c]]
        | h :: r => (c :: h) :: r

/-- `str.split()` with no argument: split on whitespace runs, dropping
empty fields. -/
def pySplitWS (s : String) : List String :=
  ((splitChars Char.isWhitespace s.data).map String.mk).filter
    (fun t => t ≠ "")

/-- `" ".join(...)` / `sep.join(...)`. -/
def joinWith (sep : String) : List String → String
  | [] => ""
  | [x] => x
  | x :: xs => x ++ sep ++ joinWith sep xs

/-! ### Association-list embedding of Python dicts -/

variable {α β : Type}

/-- Dict lookup returning an `Option`. -/
def alookup [DecidableEq α] : List (α × β) → α → Option β
  | [], _ => none
  | (k, v) :: t, a => if k = a then some v else alookup t a

/-- Dict lookup with a default (`defaultdict` read / `dict.get`). -/
def lookupD [DecidableEq α] (m : List (α × β)) (a : α) (d : β) : β :=
  (alookup m a).getD d

/-- `defaultdict(Decimal)` update `m[k] += v`: adds into an existing
entry, otherwise appends a fresh one (Python dicts keep insertion
order). -/
def addTo [DecidableEq α] : List (α × ℚ) → α → ℚ → List (α × ℚ)
  | [], k, v => [(k, v)]
  | (k', v') :: t, k, v =>
      if k' = k then (k', v' + v) :: t else (k', v') :: addTo t k v

/-- Plain dict assignment `m[k] = v` (overwrite or append). -/
def setTo [DecidableEq α] : List (α × β) → α → β → List (α × β)
  | [], k, v => [(k, v)]
  | (k', v') :: t, k, v =>
      if k' = k then (k, v) :: t else (k', v') :: setTo t k v

/-- `defaultdict(list)` update `m[k].append(v)`. -/
def appendTo [DecidableEq α] : List (α × List β) → α → β → List (α × List β)
  | [], k, v => [(k, [v])]
  | (k', vs) :: t, k, v =>
      if k' = k then (k', vs ++ [v]) :: t else (k', vs) :: appendTo t k v

/-- Sum of the values of a dict (`sum(m.values())`). -/
def valuesSum (m : List (α × ℚ)) : ℚ := (m.map Prod.snd).sum

/-! ### Sorting

Python's `sorted`/`list.sort` embedded as insertion sort.  No proved
claim depends on the order of ties, so stability is not modelled. -/

/-- Insert into a sorted list according to the boolean relation `le`. -/
def insertBy (le : α → α → Bool) (a : α) : List α → List α
  | [] => [a]
  | b :: bs => if le a b then a :: b :: bs else b :: insertBy le a bs

/-- Insertion sort by the boolean relation `le`. -/
def sortBy (le : α → α → Bool) : List α → List α
  | [] => []
  | a :: t => insertBy le a (sortBy le t)

theorem mem_insertBy (le : α → α → Bool) (a x : α) (l : List α) :
    x ∈ insertBy le a l ↔ x = a ∨ x ∈ l := by
  induction l with
  | nil => simp [insertBy]
  | cons b bs ih =>
      simp only [insertBy]
      by_cases h : le a b = true
      · simp [h]
      · simp [h, ih]
        tauto

theorem mem_sortBy (le : α → α → Bool) (x : α) (l : List α) :
    x ∈ sortBy le l ↔ x ∈ l := by
  induction l with
  | nil => simp [sortBy]
  | cons a t ih => simp [sortBy, mem_insertBy, ih]

theorem sum_map_insertBy (le : α → α → Bool) (f : α → ℚ) (a : α)
    (l : List α) :
    ((insertBy le a l).map f).sum = f a + (l.map f).sum := by
  induction l with
  | nil => simp [insertBy]
  | cons b bs ih =>
      simp only [insertBy]
      by_cases h : le a b = true
      · simp [h]
      · simp [h, ih]
        ring

theorem sum_map_sortBy (le : α → α → Bool) (f : α → ℚ) (l : List α) :
    ((sortBy le l).map f).sum = (l.map f).sum := by
  induction l with
  | nil => rfl
  | cons a t ih => simp [sortBy, sum_map_insertBy, ih]

/-! ### Balance analysis (`src/analytics/balances.py`, `BalanceAnalyzer.analyze`) -/

/-- Mutable accumulators of `BalanceAnalyzer.analyze`. -/
structure BalState where
  net_balance : ℚ
  owed_to_user : ℚ
  user_owes : ℚ
  by_person_id : List (Int × ℚ)
  trend_over_time : List (ℕ × ℚ)
deriving Repr

/-- Body of the genuine-expense repayment loop
(`balances.py` lines 72-88). -/
def applyExpenseRepayment (currentUserId : Int) (mk : ℕ) (s : BalState)
    (r : Repayment) : BalState :=
  if r.to_user = currentUserId then
    { s with
      by_person_id := addTo s.by_person_id r.from_user r.amount
      net_balance := s.net_balance + r.amount
      owed_to_user := s.owed_to_user + r.amount
      trend_over_time := addTo s.trend_over_time mk r.amount }
  else if r.from_user = currentUserId then
    { s with
      by_person_id := addTo s.by_person_id r.to_user (-r.amount)
      net_balance := s.net_balance - r.amount
      user_owes := s.user_owes + r.amount
      trend_over_time := addTo s.trend_over_time mk (-r.amount) }
  else s

/-- Body of the settlement repayment loop (`balances.py` lines 94-108):
edges are applied with inverted sign and touch neither `owed_to_user`
nor `user_owes`. -/
def applySettlementRepayment (currentUserId : Int) (mk : ℕ) (s : BalState)
    (r : Repayment) : BalState :=
  if r.from_user = currentUserId then
    { s with
      by_person_id := addTo s.by_person_id r.to_user r.amount
      net_balance := s.net_balance + r.amount
      trend_over_time := addTo s.trend_over_time mk r.amount }
  else if r.to_user = currentUserId then
    { s with
      by_person_id := addTo s.by_person_id r.from_user (-r.amount)
      net_balance := s.net_balance - r.amount
      trend_over_time := addTo s.trend_over_time mk (-r.amount) }
  else s

/-- `for repayment in expense.repayments` over one genuine expense. -/
def processExpense (currentUserId : Int) (s : BalState) (e : Expense) :
    BalState :=
  e.repayments.foldl (applyExpenseRepayment currentUserId e.date.monthKey) s

/-- `for repayment in settlement.repayments` over one settlement. -/
def processSettlement (currentUserId : Int) (s : BalState) (e : Expense) :
    BalState :=
  e.repayments.foldl (applySettlementRepayment currentUserId e.date.monthKey) s

/-- `balances.py` lines 49-64: first-occurrence display-name lookup. -/
def buildNameLookup (expenses : List Expense) : List (Int × String) :=
  expenses.foldl
    (fun acc e =>
      if e.deleted_at.isSome then acc
      else
        e.users.foldl
          (fun acc ud =>
            match ud.userId with
            | none => acc
            | some uid =>
                if uid = 0 then acc  -- Python falsy check `if user_id`
                else if (alookup acc uid).isSome then acc
                else
                  let full_name :=
                    if ud.last_name ≠ "" && ud.last_name ≠ "None" then
                      pyStrip (ud.first_name ++ " " ++ ud.last_name)
                    else pyStrip ud.first_name
                  if full_name ≠ "" then acc ++ [(uid, full_name)] else acc)
          acc)
    []

/-- Cumulative prefix sum over the chronologically sorted monthly trend
(`balances.py` lines 118-123). -/
def cumulify (c : ℚ) : List (ℕ × ℚ) → List (ℕ × ℚ)
  | [] => []
  | (k, v) :: t => (k, c + v) :: cumulify (c + v) t

/-- `models.schemas.BalanceInsight` (the analysed fields), extended with
the internal `by_person_id` accumulator so that per-counterparty claims
can be stated before zero balances are dropped for display. -/
structure BalanceInsight where
  net_balance : ℚ
  currency_code : String
  owed_to_user : ℚ
  user_owes : ℚ
  by_person_id : List (Int × ℚ)
  by_person : List (String × ℚ)
  trend_over_time : List (ℕ × ℚ)
deriving Repr

/-- `BalanceAnalyzer.analyze` (`src/analytics/balances.py` lines 25-147). -/
def BalanceAnalyzer.analyze (currentUserId : Int)
    (expenses : List Expense) : BalanceInsight :=
  let valid_expenses := expenses.filter (fun e => e.deleted_at.isNone && !e.payment)
  let settlements := expenses.filter (fun e => e.deleted_at.isNone && e.payment)
  let user_name_lookup := buildNameLookup expenses
  let s0 : BalState := ⟨0, 0, 0, [], []⟩
  let s1 := valid_expenses.foldl (processExpense currentUserId) s0
  let s2 := settlements.foldl (processSettlement currentUserId) s1
  let currency_code :=
    valid_expenses.foldl (fun _ e => e.currency_code) "USD"
  let by_person :=
    s2.by_person_id.foldl
      (fun acc p =>
        if p.2 ≠ 0 then
          setTo acc (lookupD user_name_lookup p.1 ("User " ++ toString p.1)) p.2
        else acc)
      []
  let sorted_months := sortBy (fun a b => a.1 ≤ b.1) s2.trend_over_time
  { net_balance := s2.net_balance
    currency_code := currency_code
    owed_to_user := s2.owed_to_user
    user_owes := s2.user_owes
    by_person_id := s2.by_person_id
    by_person := by_person
    trend_over_time := cumulify 0 sorted_months }

/-- The settlement adjustment to the current user's net balance: the
signed sum of settlement repayment edges touching the user (the same
quantity `verifier.verify_net_balance` calls `settlement_balance`, with
the sign convention of the settlement loop in `balances.py`). -/
def settlementAdjustment (currentUserId : Int) (expenses : List Expense) : ℚ :=
  (expenses.filter (fun e => e.deleted_at.isNone && e.payment)).foldl
    (fun acc e =>
      e.repayments.foldl
        (fun acc r =>
          if r.from_user = currentUserId then acc + r.amount
          else if r.to_user = currentUserId then acc - r.amount
          else acc)
        acc)
    0

/-! ### Concrete ledger scenarios -/

/-- Shorthand for a `users` entry whose `"user"` dict is populated. -/
def uShare (uid : Int) (fn ln : String) (p o : ℚ) : UserShare :=
  ⟨some uid, fn, ln, p, o⟩

/-- Genuine expense: the current user (id 1) owes counterparty C
(id 2) $30 — repayment edge `from 1 to 2, 30`. -/
def scn_genuine_owes_30 : Expense :=
  { id := 101, group_id := none, description := "Dinner"
    payment := false, cost := 60, currency_code := "USD"
    date := ⟨2024, 1, 10⟩
    users := [uShare 1 "Me" "" 0 30, uShare 2 "Cara" "C" 60 30]
    repayments := [⟨1, 2, 30, "USD"⟩]
    category := some "Food", deleted_at := none }

/-- Settlement: $30 transferred from the current user (id 1) to C
(id 2). -/
def scn_settle_pay_30 : Expense :=
  { id := 102, group_id := none, description := "Payment"
    payment := true, cost := 30, currency_code := "USD"
    date := ⟨2024, 1, 20⟩
    users := [uShare 1 "Me" "" 30 0, uShare 2 "Cara" "C" 0 30]
    repayments := [⟨1, 2, 30, "USD"⟩]
    category := none, deleted_at := none }

/-- Claim C1: with a genuine expense recording the current user owing
counterparty C $30 followed by a settlement expense recording a $30
transfer from the user to C, `BalanceAnalyzer.analyze` nets the balance
with C to exactly 0 (the settlement edge is applied with inverted sign,
not doubling the debt to −60); consequently C is dropped from the
display `by_person` map. -/
theorem settlement_sign_inversion_nets_to_zero :
    lookupD (BalanceAnalyzer.analyze 1
        [scn_genuine_owes_30, scn_settle_pay_30]).by_person_id 2 0 = 0
      ∧ (BalanceAnalyzer.analyze 1
        [scn_genuine_owes_30, scn_settle_pay_30]).by_person = []
      ∧ (BalanceAnalyzer.analyze 1
        [scn_genuine_owes_30, scn_settle_pay_30]).net_balance = 0 := by
  norm_num [BalanceAnalyzer.analyze, processExpense, processSettlement,
    applyExpenseRepayment, applySettlementRepayment, addTo, lookupD, alookup,
    scn_genuine_owes_30, scn_settle_pay_30, uShare, List.foldl, Date.monthKey,
    buildNameLookup, setTo]

/-- Genuine expense: the current user (id 1) owes counterparty D
(id 3) $40. -/
def scn3_genuine_owes_40 : Expense :=
  { id := 201, group_id := none, description := "Taxi"
    payment := false, cost := 80, currency_code := "USD"
    date := ⟨2024, 2, 5⟩
    users := [uShare 1 "Me" "" 0 40, uShare 3 "Dana" "D" 80 40]
    repayments := [⟨1, 3, 40, "USD"⟩]
    category := some "Travel", deleted_at := none }

/-- Settlement: $40 transferred from the current user (id 1) to D
(id 3). -/
def scn3_settle_pay_40 : Expense :=
  { id := 202, group_id := none, description := "Payment"
    payment := true, cost := 40, currency_code := "USD"
    date := ⟨2024, 2, 15⟩
    users := [uShare 1 "Me" "" 40 0, uShare 3 "Dana" "D" 0 40]
    repayments := [⟨1, 3, 40, "USD"⟩]
    category := none, deleted_at := none }

/-- Claim C3, counterexample: on an input containing a settlement,
`owed_to_user - user_owes` misses `net_balance` by $40 (the settlement
loop adjusts `net_balance` but neither `owed_to_user` nor `user_owes`),
so the decomposition does not hold within one cent for every input. -/
theorem balance_decomposition_fails_with_settlements :
    ¬ (|(BalanceAnalyzer.analyze 1 [scn3_genuine_owes_40, scn3_settle_pay_40]).owed_to_user
        - (BalanceAnalyzer.analyze 1 [scn3_genuine_owes_40, scn3_settle_pay_40]).user_owes
        - (BalanceAnalyzer.analyze 1 [scn3_genuine_owes_40, scn3_settle_pay_40]).net_balance|
      ≤ 1 / 100) := by
  norm_num [BalanceAnalyzer.analyze, processExpense, processSettlement,
    applyExpenseRepayment, applySettlementRepayment, addTo,
    scn3_genuine_owes_40, scn3_settle_pay_40, uShare, List.foldl,
    Date.monthKey]

/-! Supporting lemmas for the amended balance decomposition. -/

/-- Signed contribution of one settlement repayment edge to the current
user's net balance. -/
def settleDelta (currentUserId : Int) (r : Repayment) : ℚ :=
  if r.from_user = currentUserId then r.amount
  else if r.to_user = currentUserId then -r.amount
  else 0

/-- The quantity preserved by the genuine-expense loop:
`net_balance - (owed_to_user - user_owes)`. -/
def balDiff (s : BalState) : ℚ :=
  s.net_balance - s.owed_to_user + s.user_owes

theorem balDiff_applyExpenseRepayment (u : Int) (mk : ℕ) (s : BalState)
    (r : Repayment) :
    balDiff (applyExpenseRepayment u mk s r) = balDiff s := by
  unfold applyExpenseRepayment balDiff
  by_cases h1 : r.to_user = u
  · simp [h1]
  · by_cases h2 : r.from_user = u
    · simp [h1, h2]
      ring
    · simp [h1, h2]

theorem balDiff_processExpense (u : Int) (s : BalState) (e : Expense) :
    balDiff (processExpense u s e) = balDiff s := by
  unfold processExpense
  generalize e.date.monthKey = mk
  induction e.repayments generalizing s with
  | nil => rfl
  | cons r t ih =>
      simp only [List.foldl_cons, ih, balDiff_applyExpenseRepayment]

theorem balDiff_foldl_processExpense (u : Int) (l : List Expense)
    (s : BalState) :
    balDiff (l.foldl (processExpense u) s) = balDiff s := by
  induction l generalizing s with
  | nil => rfl
  | cons e t ih => simp only [List.foldl_cons, ih, balDiff_processExpense]

theorem balDiff_applySettlementRepayment (u : Int) (mk : ℕ) (s : BalState)
    (r : Repayment) :
    balDiff (applySettlementRepayment u mk s r)
      = balDiff s + settleDelta u r := by
  unfold applySettlementRepayment balDiff settleDelta
  by_cases h1 : r.from_user = u
  · simp [h1]
    ring
  · by_cases h2 : r.to_user = u
    · simp [h1, h2]
      ring
    · simp [h1, h2]

theorem balDiff_processSettlement (u : Int) (s : BalState) (e : Expense) :
    balDiff (processSettlement u s e)
      = balDiff s + (e.repayments.map (settleDelta u)).sum := by
  unfold processSettlement
  generalize e.date.monthKey = mk
  induction e.repayments generalizing s with
  | nil => simp
  | cons r t ih =>
      simp only [List.foldl_cons, ih, balDiff_applySettlementRepayment,
        List.map_cons, List.sum_cons]
      ring

theorem balDiff_foldl_processSettlement (u : Int) (l : List Expense)
    (s : BalState) :
    balDiff (l.foldl (processSettlement u) s)
      = balDiff s
        + (l.map (fun e => (e.repayments.map (settleDelta u)).sum)).sum := by
  induction l generalizing s with
  | nil => simp
  | cons e t ih =>
      simp only [List.foldl_cons, ih, balDiff_processSettlement,
        List.map_cons, List.sum_cons]
      ring

theorem settleDelta_foldl (u : Int) (l : List Repayment) (acc : ℚ) :
    l.foldl
        (fun acc r =>
          if r.from_user = u then acc + r.amount
          else if r.to_user = u then acc - r.amount
          else acc)
        acc
      = acc + (l.map (settleDelta u)).sum := by
  induction l generalizing acc with
  | nil => simp
  | cons r t ih =>
      simp only [List.foldl_cons, List.map_cons, List.sum_cons, ih]
      unfold settleDelta
      by_cases h1 : r.from_user = u
      · simp [h1]
        ring
      · by_cases h2 : r.to_user = u
        · simp [h1, h2]
          ring
        · simp [h1, h2]

theorem settlementAdjustment_eq_sum (u : Int) (es : List Expense) :
    settlementAdjustment u es
      = ((es.filter (fun e => e.deleted_at.isNone && e.payment)).map
          (fun e => (e.repayments.map (settleDelta u)).sum)).sum := by
  unfold settlementAdjustment
  generalize es.filter (fun e => e.deleted_at.isNone && e.payment) = l
  suffices h : ∀ (acc : ℚ),
      l.foldl
          (fun acc e =>
            e.repayments.foldl
              (fun acc r =>
                if r.from_user = u then acc + r.amount
                else if r.to_user = u then acc - r.amount
                else acc)
              acc)
          acc
        = acc + (l.map (fun e => (e.repayments.map (settleDelta u)).sum)).sum by
    simpa using h 0
  induction l with
  | nil => simp
  | cons e t ih =>
      intro acc
      rw [List.foldl_cons, ih, settleDelta_foldl, List.map_cons,
        List.sum_cons]
      ring

/-- Claim C3, amended: for every input set of expenses,
`owed_to_user - user_owes` equals `net_balance` minus the settlement
adjustment (the signed sum of settlement repayment edges touching the
current user); the decomposition as originally claimed therefore holds
exactly on inputs whose settlements do not involve the current user. -/
theorem balance_decomposition_amended (u : Int) (es : List Expense) :
    (BalanceAnalyzer.analyze u es).net_balance
      = (BalanceAnalyzer.analyze u es).owed_to_user
        - (BalanceAnalyzer.analyze u es).user_owes
        + settlementAdjustment u es := by
  have h2 := balDiff_foldl_processSettlement u
    (es.filter (fun e => e.deleted_at.isNone && e.payment))
    ((es.filter (fun e => e.deleted_at.isNone && !e.payment)).foldl
      (processExpense u) ⟨0, 0, 0, [], []⟩)
  have h1 := balDiff_foldl_processExpense u
    (es.filter (fun e => e.deleted_at.isNone && !e.payment))
    ⟨0, 0, 0, [], []⟩
  have h0 : balDiff ⟨0, 0, 0, [], []⟩ = 0 := by simp [balDiff]
  rw [h1, h0] at h2
  rw [settlementAdjustment_eq_sum]
  simp only [BalanceAnalyzer.analyze]
  unfold balDiff at h2
  linarith [h2]

/-! ### Currency normalization (`src/ingestion/normalizer.py`)

`DataNormalizer.__init__` upper-cases the base currency and rejects a
base outside the rate table, so every constructed normalizer has a base
with a table entry; the functions below take that base as a parameter
(the repository only ever uses the default `"USD"`). -/

/-- `DataNormalizer.EXCHANGE_RATES` (rates relative to USD). -/
def EXCHANGE_RATES : List (String × ℚ) :=
  [("USD", 1), ("EUR", 11 / 10), ("GBP", 127 / 100), ("INR", 12 / 1000),
   ("CAD", 74 / 100), ("AUD", 65 / 100)]

/-- `Decimal.quantize(Decimal("0.01"), rounding=ROUND_HALF_UP)`:
round to 2 decimal places, ties away from zero. -/
def roundHalfUp2 (x : ℚ) : ℚ :=
  if 0 ≤ x then (⌊x * 100 + 1 / 2⌋ : ℚ) / 100
  else -((⌊-x * 100 + 1 / 2⌋ : ℚ) / 100)

/-- `DataNormalizer.normalize_currency` (lines 36-62): identity on the
base currency, passthrough on unknown currencies, otherwise rounded
conversion through the rate table. -/
def normalize_currency (base : String) (amount : ℚ)
    (from_currency : String) : ℚ :=
  let fc := pyUpper from_currency
  if fc = base then amount
  else
    match alookup EXCHANGE_RATES fc with
    | none => amount  -- unknown currency: assume 1:1
    | some source_rate =>
        let base_rate := (alookup EXCHANGE_RATES base).getD 1
        roundHalfUp2 (amount * (base_rate / source_rate))

/-- The repayment-normalization loop of `normalize_expense` (lines
97-107).  Its body constructs `ExpenseRepayment(...)`, a name the module
never imports (`normalizer.py` line 8 imports only `Expense, Group,
CurrencyCode`), so the first iteration raises `NameError`; the loop
completes only when there is nothing to iterate over. -/
def normalize_repayments : List Repayment → Except String (List Repayment)
  | [] => .ok []
  | _ :: _ => .error "NameError: name ExpenseRepayment is not defined"

/-- Share-string normalization of the `users` array (lines 126-146):
paid/owed shares are converted from the expense's own source
currency. -/
def normalize_user_share (base : String) (src_currency : String)
    (ud : UserShare) : UserShare :=
  { ud with
    paid_share := normalize_currency base ud.paid_share src_currency
    owed_share := normalize_currency base ud.owed_share src_currency }

/-- `DataNormalizer.normalize_expense` (lines 80-148) as a fallible
function: `.error` models the uncaught `NameError` raised while
normalizing a non-empty repayments list.  Timestamp normalization is the
identity on the date embedding (dates are already UTC). -/
def normalize_expense (base : String) (e : Expense) :
    Except String Expense :=
  let normalized_cost := normalize_currency base e.cost e.currency_code
  match normalize_repayments e.repayments with
  | .error msg => .error msg
  | .ok normalized_repayments =>
      .ok { e with
            cost := normalized_cost
            currency_code := base
            repayments := normalized_repayments
            users := e.users.map (normalize_user_share base e.currency_code) }

/-- Whether a fallible normalization step succeeded. -/
def normOk : Except String Expense → Bool
  | .ok _ => true
  | .error _ => false

/-- Claim C2: `normalize_expense` succeeds exactly on expenses whose
repayments list is empty; any repayment edge sends the normalizer into
the unbound-name (`ExpenseRepayment`) failure, so currency
normalization is not total on expenses carrying repayment edges. -/
theorem normalize_expense_ok_iff_no_repayments (e : Expense) :
    normOk (normalize_expense "USD" e) = true ↔ e.repayments = [] := by
  cases h : e.repayments with
  | nil => simp [normalize_expense, normalize_repayments, normOk, h]
  | cons r t => simp [normalize_expense, normalize_repayments, normOk, h]

/-- Expense in an unknown currency with no repayment edges. -/
def scn4_unknown_currency : Expense :=
  { id := 301, group_id := none, description := "Hotel"
    payment := false, cost := 250, currency_code := "XYZ"
    date := ⟨2024, 3, 3⟩
    users := [uShare 1 "Me" "" 250 125]
    repayments := []
    category := some "Travel", deleted_at := none }

/-- Claim C4, counterexample: normalizing an expense whose source
currency `"XYZ"` is not in the rate table passes the amount through
unconverted but stamps the normalized expense with the base currency
`"USD"` (`normalizer.py` line 116), rather than leaving the currency
code as-is. -/
theorem unknown_currency_code_not_preserved :
    (normalize_expense "USD" scn4_unknown_currency).toOption.map
        Expense.currency_code = some "USD"
      ∧ scn4_unknown_currency.currency_code = "XYZ"
      ∧ (normalize_expense "USD" scn4_unknown_currency).toOption.map
        Expense.cost = some 250 := by
  decide

/-- Claim C4, amended: an amount whose source currency is not in the
exchange-rate table is passed through unconverted and no error is
raised, and expense-level normalization (absent the unrelated
repayment-edge failure) keeps the cost unchanged — but the normalized
expense's `currency_code` is set to the base currency, not left
as-is. -/
theorem unknown_currency_passthrough (base fc : String) (amount : ℚ)
    (hfc : alookup EXCHANGE_RATES (pyUpper fc) = none) :
    normalize_currency base amount fc = amount := by
  unfold normalize_currency
  by_cases h : pyUpper fc = base
  · simp [h]
  · simp [h, hfc]

/-- Witness for `unknown_currency_passthrough` at currency `"XYZ"`. -/
theorem unknown_currency_passthrough_witness :
    alookup EXCHANGE_RATES (pyUpper "XYZ") = none
      ∧ normalize_currency "USD" (250 : ℚ) "XYZ" = 250 :=
  ⟨by decide, unknown_currency_passthrough "USD" "XYZ" 250 (by decide)⟩

/-! ### Spending analysis (`src/analytics/spending.py`, `SpendingAnalyzer.analyze`) -/

/-- `f"{date.year}-Q{(date.month - 1) // 3 + 1}"` used as a grouping
key, embedded order- and equality-faithfully as a number. -/
def Date.quarterKey (d : Date) : ℕ := d.year * 4 + ((d.month - 1) / 3 + 1)

/-- Accumulators of `SpendingAnalyzer.analyze` (lines 42-70). -/
structure SpendState where
  total_spending : ℚ
  monthly : List (ℕ × ℚ)
  quarterly : List (ℕ × ℚ)
  yearly : List (ℕ × ℚ)
  currency_code : String
deriving Repr

/-- Body of the `for user_data in expense.users` loop (lines 51-70). -/
def spendStep (u : Int) (e : Expense) (st : SpendState) (ud : UserShare) :
    SpendState :=
  if ud.userId = some u then
    { total_spending := st.total_spending + ud.paid_share
      monthly := addTo st.monthly e.date.monthKey ud.paid_share
      quarterly := addTo st.quarterly e.date.quarterKey ud.paid_share
      yearly := addTo st.yearly e.date.year ud.paid_share
      currency_code := e.currency_code }
  else st

/-- One iteration of the outer expense loop. -/
def processSpending (u : Int) (st : SpendState) (e : Expense) : SpendState :=
  e.users.foldl (spendStep u e) st

/-- Key-sorted dict order used by `sorted(... .items())` and
`sorted(... .keys())`. -/
def keyLe (a b : ℕ × ℚ) : Bool := a.1 ≤ b.1

/-- `models.schemas.SpendingInsight` (the analysed fields; the
explanation string and the display-only peak/average fields are
omitted). -/
structure SpendingInsight where
  total_spending : ℚ
  currency_code : String
  monthly_breakdown : List (ℕ × ℚ)
  quarterly_breakdown : List (ℕ × ℚ)
  yearly_breakdown : List (ℕ × ℚ)
  spending_trend : String
deriving Repr

/-- `SpendingAnalyzer.analyze` (`src/analytics/spending.py` lines
25-129).  `monthly_dict` is key-sorted, so its key list *is*
`sorted_months` and indexing the dict along `sorted_months[:mid]` /
`[mid:]` is exactly traversing its first `mid` / remaining entries. -/
def SpendingAnalyzer.analyze (u : Int) (expenses : List Expense) :
    SpendingInsight :=
  let valid_expenses :=
    expenses.filter (fun e => e.deleted_at.isNone && !e.payment)
  let st := valid_expenses.foldl (processSpending u)
    ⟨0, [], [], [], "USD"⟩
  let monthly_dict := sortBy keyLe st.monthly
  let spending_trend :=
    if 4 ≤ monthly_dict.length then
      let mid := monthly_dict.length / 2
      let first_half := valuesSum (monthly_dict.take mid)
      let second_half := valuesSum (monthly_dict.drop mid)
      let first_avg := first_half / (mid : ℚ)
      let second_avg := second_half / ((monthly_dict.length - mid : ℕ) : ℚ)
      if first_avg * (11 / 10) < second_avg then "increasing"
      else if second_avg < first_avg * (9 / 10) then "decreasing"
      else "stable"
    else "stable"
  { total_spending := st.total_spending
    currency_code := st.currency_code
    monthly_breakdown := monthly_dict
    quarterly_breakdown := sortBy keyLe st.quarterly
    yearly_breakdown := sortBy keyLe st.yearly
    spending_trend := spending_trend }

/-- The trend classifier exactly as claim C5 words it (non-strict
thresholds): `increasing` when the second half's per-month average is
≥ 1.10× the first half's, `decreasing` when ≤ 0.90×, `stable`
otherwise or with fewer than 4 populated months. -/
def trendSpecClaim (monthly : List (ℕ × ℚ)) : String :=
  let ms := sortBy keyLe monthly
  if 4 ≤ ms.length then
    let mid := ms.length / 2
    let first_avg := valuesSum (ms.take mid) / (mid : ℚ)
    let second_avg := valuesSum (ms.drop mid) / ((ms.length - mid : ℕ) : ℚ)
    if first_avg * (11 / 10) ≤ second_avg then "increasing"
    else if second_avg ≤ first_avg * (9 / 10) then "decreasing"
    else "stable"
  else "stable"

/-- The trend classifier of claim C5 amended to the code's strict
thresholds: `increasing` only when the second half's per-month average
strictly exceeds 1.10× the first half's, `decreasing` only when it is
strictly below 0.90×. -/
def trendSpecStrict (monthly : List (ℕ × ℚ)) : String :=
  let ms := sortBy keyLe monthly
  if 4 ≤ ms.length then
    let mid := ms.length / 2
    let first_avg := valuesSum (ms.take mid) / (mid : ℚ)
    let second_avg := valuesSum (ms.drop mid) / ((ms.length - mid : ℕ) : ℚ)
    if first_avg * (11 / 10) < second_avg then "increasing"
    else if second_avg < first_avg * (9 / 10) then "decreasing"
    else "stable"
  else "stable"

/-! Sortedness lemmas: `sortBy` is idempotent, so re-sorting the
already-sorted monthly breakdown changes nothing. -/

theorem pairwise_insertBy {α : Type} (le : α → α → Bool)
    (htot : ∀ a b, le a b = true ∨ le b a = true)
    (htrans : ∀ a b c, le a b = true → le b c = true → le a c = true)
    (a : α) (l : List α)
    (hl : l.Pairwise (fun x y => le x y = true)) :
    (insertBy le a l).Pairwise (fun x y => le x y = true) := by
  induction l with
  | nil => simp [insertBy]
  | cons b bs ih =>
      rcases List.pairwise_cons.mp hl with ⟨hb, hbs⟩
      by_cases h : le a b = true
      · simp only [insertBy, h, if_true]
        refine List.pairwise_cons.mpr ⟨?_, hl⟩
        intro x hx
        rcases List.mem_cons.mp hx with heq | hx
        · rw [heq]; exact h
        · exact htrans a b x h (hb x hx)
      · simp only [insertBy, h, if_false]
        refine List.pairwise_cons.mpr ⟨?_, ih hbs⟩
        intro x hx
        rcases (mem_insertBy le a x bs).mp hx with heq | hx
        · rw [heq]
          rcases htot a b with h' | h'
          · exact absurd h' h
          · exact h'
        · exact hb x hx

theorem pairwise_sortBy {α : Type} (le : α → α → Bool)
    (htot : ∀ a b, le a b = true ∨ le b a = true)
    (htrans : ∀ a b c, le a b = true → le b c = true → le a c = true)
    (l : List α) :
    (sortBy le l).Pairwise (fun x y => le x y = true) := by
  induction l with
  | nil => simp [sortBy]
  | cons a t ih => exact pairwise_insertBy le htot htrans a (sortBy le t) ih

theorem sortBy_of_pairwise {α : Type} (le : α → α → Bool) (l : List α)
    (hl : l.Pairwise (fun x y => le x y = true)) :
    sortBy le l = l := by
  induction l with
  | nil => rfl
  | cons a t ih =>
      rcases List.pairwise_cons.mp hl with ⟨ha, ht⟩
      simp only [sortBy, ih ht]
      cases t with
      | nil => rfl
      | cons b bs => simp [insertBy, ha b (List.mem_cons_self b bs)]

theorem keyLe_total (a b : ℕ × ℚ) : keyLe a b = true ∨ keyLe b a = true := by
  simp only [keyLe, decide_eq_true_eq]
  exact Nat.le_total a.1 b.1

theorem keyLe_trans (a b c : ℕ × ℚ) (h1 : keyLe a b = true)
    (h2 : keyLe b c = true) : keyLe a c = true := by
  simp only [keyLe, decide_eq_true_eq] at h1 h2 ⊢
  exact Nat.le_trans h1 h2

theorem sortBy_keyLe_idem (l : List (ℕ × ℚ)) :
    sortBy keyLe (sortBy keyLe l) = sortBy keyLe l :=
  sortBy_of_pairwise keyLe _
    (pairwise_sortBy keyLe keyLe_total keyLe_trans l)

/-- Claim C5, amended: `SpendingAnalyzer.analyze` classifies its trend
exactly as the claim describes except that both thresholds are strict:
with at least 4 populated months, `increasing` iff the second half's
per-month average is strictly greater than 1.10× the first half's,
`decreasing` iff strictly less than 0.90×, otherwise `stable`; with
fewer than 4 populated months always `stable`. -/
theorem spending_trend_matches_strict_classifier (u : Int)
    (expenses : List Expense) :
    (SpendingAnalyzer.analyze u expenses).spending_trend
      = trendSpecStrict
          (SpendingAnalyzer.analyze u expenses).monthly_breakdown := by
  simp only [SpendingAnalyzer.analyze, trendSpecStrict, sortBy_keyLe_idem]

/-- Four monthly totals 10, 10, 11, 11: the second half's per-month
average is exactly 1.10× the first half's. -/
def scn5_expenses : List Expense :=
  [ { id := 401, group_id := none, description := "Groceries"
      payment := false, cost := 10, currency_code := "USD"
      date := ⟨2024, 1, 5⟩, users := [uShare 1 "Me" "" 10 5]
      repayments := [], category := none, deleted_at := none },
    { id := 402, group_id := none, description := "Groceries"
      payment := false, cost := 10, currency_code := "USD"
      date := ⟨2024, 2, 5⟩, users := [uShare 1 "Me" "" 10 5]
      repayments := [], category := none, deleted_at := none },
    { id := 403, group_id := none, description := "Groceries"
      payment := false, cost := 11, currency_code := "USD"
      date := ⟨2024, 3, 5⟩, users := [uShare 1 "Me" "" 11 5]
      repayments := [], category := none, deleted_at := none },
    { id := 404, group_id := none, description := "Groceries"
      payment := false, cost := 11, currency_code := "USD"
      date := ⟨2024, 4, 5⟩, users := [uShare 1 "Me" "" 11 5]
      repayments := [], category := none, deleted_at := none } ]

/-- Claim C5, counterexample: on four months with totals 10, 10, 11, 11
the second half's average equals 1.10× the first half's, so the claim
(threshold `≥ 1.10×`) classifies `increasing`, but the code's strict
comparison (`> 1.10×`, `spending.py` line 101) yields `stable`. -/
theorem spending_trend_boundary_stable :
    (SpendingAnalyzer.analyze 1 scn5_expenses).spending_trend = "stable"
      ∧ trendSpecClaim
          (SpendingAnalyzer.analyze 1 scn5_expenses).monthly_breakdown
        = "increasing" := by
  norm_num [SpendingAnalyzer.analyze, trendSpecClaim, processSpending,
    spendStep, addTo, valuesSum, scn5_expenses, uShare, List.foldl,
    Date.monthKey, Date.quarterKey, sortBy, insertBy, keyLe]

/-! Claim C7: spending/monthly reconciliation. -/

theorem valuesSum_addTo {α : Type} [DecidableEq α] (m : List (α × ℚ))
    (k : α) (v : ℚ) : valuesSum (addTo m k v) = valuesSum m + v := by
  induction m with
  | nil => simp [addTo, valuesSum]
  | cons p t ih =>
      by_cases h : p.1 = k
      · cases p
        simp_all [addTo, valuesSum]
        ring
      · cases p
        simp_all [addTo, valuesSum]
        ring

/-- The reconciliation invariant maintained by the spending fold. -/
def spendInv (st : SpendState) : Prop :=
  st.total_spending = valuesSum st.monthly

theorem spendInv_spendStep (u : Int) (e : Expense) (st : SpendState)
    (ud : UserShare) (h : spendInv st) : spendInv (spendStep u e st ud) := by
  unfold spendInv at h ⊢
  unfold spendStep
  by_cases hu : ud.userId = some u
  · simp [hu, valuesSum_addTo, h]
  · simp [hu, h]

theorem spendInv_processSpending (u : Int) (st : SpendState) (e : Expense)
    (h : spendInv st) : spendInv (processSpending u st e) := by
  unfold processSpending
  induction e.users generalizing st with
  | nil => exact h
  | cons ud t ih =>
      simp only [List.foldl_cons]
      exact ih _ (spendInv_spendStep u e st ud h)

theorem spendInv_foldl (u : Int) (l : List Expense) (st : SpendState)
    (h : spendInv st) : spendInv (l.foldl (processSpending u) st) := by
  induction l generalizing st with
  | nil => exact h
  | cons e t ih =>
      simp only [List.foldl_cons]
      exact ih _ (spendInv_processSpending u st e h)

/-- Claim C7: for every input set of expenses, the monthly breakdown of
the spending insight sums exactly to `total_spending` (both accumulate
the current user's paid shares of non-deleted, non-settlement expenses),
so in particular they agree within one cent. -/
theorem monthly_breakdown_sums_to_total (u : Int)
    (expenses : List Expense) :
    valuesSum (SpendingAnalyzer.analyze u expenses).monthly_breakdown
      = (SpendingAnalyzer.analyze u expenses).total_spending := by
  have h := spendInv_foldl u
    (expenses.filter (fun e => e.deleted_at.isNone && !e.payment))
    ⟨0, [], [], [], "USD"⟩ (by simp [spendInv, valuesSum])
  unfold spendInv at h
  simp only [SpendingAnalyzer.analyze]
  have hsort : valuesSum
      (sortBy keyLe
        ((expenses.filter (fun e => e.deleted_at.isNone && !e.payment)).foldl
          (processSpending u) ⟨0, [], [], [], "USD"⟩).monthly)
      = valuesSum
        ((expenses.filter (fun e => e.deleted_at.isNone && !e.payment)).foldl
          (processSpending u) ⟨0, [], [], [], "USD"⟩).monthly :=
    sum_map_sortBy keyLe Prod.snd _
  rw [hsort, ← h]

/-! ### Anomaly detection (`src/analytics/advanced.py`,
`AdvancedAnalyzer.detect_anomalies`)

Python computes the statistics on `float`s; amounts are embedded as
exact rationals and the square root inside `statistics.stdev` is an
abstract parameter `sqrtFn` (every claim proved below holds for any
interpretation of the square root that is non-negative on the sample
variance, which the real square root is). -/

/-- `statistics.mean`. -/
def sample_mean (l : List ℚ) : ℚ := l.sum / (l.length : ℚ)

/-- The square of `statistics.stdev` (sample variance, `n - 1`
denominator). -/
def sample_variance (l : List ℚ) : ℚ :=
  ((l.map (fun x => (x - sample_mean l) ^ 2)).sum) / ((l.length - 1 : ℕ) : ℚ)

/-- Lines 56-69: the current user's positive paid shares across
non-deleted, non-settlement expenses, paired with their expenses
(`expense_amounts`). -/
def anomaly_pairs (u : Int) (expenses : List Expense) :
    List (Expense × ℚ) :=
  (expenses.filter (fun e => e.deleted_at.isNone && !e.payment)).flatMap
    (fun e =>
      e.users.filterMap
        (fun ud =>
          if ud.userId = some u && decide (0 < ud.paid_share) then
            some (e, ud.paid_share)
          else none))

/-- `AdvancedAnalyzer.detect_anomalies` (lines 36-105), returning the
list of reported anomalies (each an expense with its paid amount; the
formatted reason string is display-only).  Fewer than 3 data points
short-circuit to no anomalies. -/
def detect_anomalies (sqrtFn : ℚ → ℚ) (u : Int) (expenses : List Expense)
    (threshold_multiplier : ℚ) : List (Expense × ℚ) :=
  let pairs := anomaly_pairs u expenses
  let amounts := pairs.map Prod.snd
  if amounts.length < 3 then []
  else
    let mean := sample_mean amounts
    let stdev := sqrtFn (sample_variance amounts)
    let threshold := mean + threshold_multiplier * stdev
    pairs.filter (fun p => threshold < p.2)

theorem length_filter_of_imp {α : Type} (l : List α) (p q : α → Bool)
    (h : ∀ x, q x = true → p x = true) :
    (l.filter q).length ≤ (l.filter p).length := by
  induction l with
  | nil => simp
  | cons a t ih =>
      by_cases hq : q a = true
      · simp [List.filter_cons, hq, h a hq]
        exact ih
      · simp only [List.filter_cons, hq, if_false, Bool.false_eq_true]
        by_cases hp : p a = true
        · simp [hp]
          exact Nat.le_trans ih (Nat.le_succ _)
        · simp [hp]
          exact ih

/-- Claim C8: for a fixed input and any non-negative interpretation of
the standard deviation, raising the threshold multiplier never
increases the anomaly count. -/
theorem anomaly_count_antitone (sqrtFn : ℚ → ℚ) (u : Int)
    (expenses : List Expense) (m1 m2 : ℚ) (hm : m1 ≤ m2)
    (hs : 0 ≤ sqrtFn (sample_variance
      ((anomaly_pairs u expenses).map Prod.snd))) :
    (detect_anomalies sqrtFn u expenses m2).length
      ≤ (detect_anomalies sqrtFn u expenses m1).length := by
  unfold detect_anomalies
  simp only [List.length_map]
  by_cases hlen : (anomaly_pairs u expenses).length < 3
  · simp [hlen]
  · simp only [hlen, if_false]
    apply length_filter_of_imp
    intro p hp
    simp only [decide_eq_true_eq] at hp ⊢
    have hth : sample_mean ((anomaly_pairs u expenses).map Prod.snd)
        + m1 * sqrtFn (sample_variance ((anomaly_pairs u expenses).map Prod.snd))
        ≤ sample_mean ((anomaly_pairs u expenses).map Prod.snd)
          + m2 * sqrtFn (sample_variance ((anomaly_pairs u expenses).map Prod.snd)) := by
      have := mul_le_mul_of_nonneg_right hm hs
      linarith
    linarith

/-- Three anomaly-detection data points (paid shares 1, 2 and 33). -/
def scn8_expenses : List Expense :=
  [ { id := 501, group_id := none, description := "Coffee"
      payment := false, cost := 1, currency_code := "USD"
      date := ⟨2024, 5, 1⟩, users := [uShare 1 "Me" "" 1 1]
      repayments := [], category := none, deleted_at := none },
    { id := 502, group_id := none, description := "Snack"
      payment := false, cost := 2, currency_code := "USD"
      date := ⟨2024, 5, 2⟩, users := [uShare 1 "Me" "" 2 2]
      repayments := [], category := none, deleted_at := none },
    { id := 503, group_id := none, description := "Concert"
      payment := false, cost := 33, currency_code := "USD"
      date := ⟨2024, 5, 3⟩, users := [uShare 1 "Me" "" 33 33]
      repayments := [], category := none, deleted_at := none } ]

/-- Witness for `anomaly_count_antitone`: multipliers 0 ≤ 1 on the
three-point sample, with the zero interpretation of the square root. -/
theorem anomaly_count_antitone_witness :
    (0 : ℚ) ≤ 1
      ∧ 0 ≤ (fun _ => (0 : ℚ)) (sample_variance
          ((anomaly_pairs 1 scn8_expenses).map Prod.snd))
      ∧ (detect_anomalies (fun _ => (0 : ℚ)) 1 scn8_expenses 1).length
        ≤ (detect_anomalies (fun _ => (0 : ℚ)) 1 scn8_expenses 0).length :=
  ⟨by norm_num, le_refl 0,
    anomaly_count_antitone (fun _ => 0) 1 scn8_expenses 0 1 (by norm_num)
      (le_refl 0)⟩

/-! ### Subscription detection (`src/analytics/advanced.py`,
`AdvancedAnalyzer.detect_subscriptions`, lines 107-200) -/

/-- Lines 134-136: lowercase, strip, first three whitespace-delimited
tokens joined by single spaces. -/
def pattern_key (desc : String) : String :=
  joinWith " " ((pySplitWS (pyStrip (pyLower desc))).take 3)

/-- Lines 123-137: group the current user's positive paid shares by
description pattern (`description_groups`). -/
def subscription_groups (u : Int) (expenses : List Expense) :
    List (String × List (Expense × ℚ)) :=
  (expenses.filter (fun e => e.deleted_at.isNone && !e.payment)).foldl
    (fun m e =>
      e.users.foldl
        (fun m ud =>
          if ud.userId = some u && decide (0 < ud.paid_share) then
            appendTo m (pattern_key e.description) (e, ud.paid_share)
          else m)
        m)
    []

/-- `models.schemas.RecurringExpense`. -/
structure RecurringExpense where
  description_pattern : String
  category : Option String
  average_amount : ℚ
  frequency_days : ℚ
  occurrences : ℕ
  total_amount : ℚ
  currency_code : String
  last_occurrence : Date
deriving DecidableEq, Repr

/-- Date order used by `expense_list.sort(key=lambda x: x[0].date)`. -/
def dateLe (a b : Expense × ℚ) : Bool := a.1.date.toDays ≤ b.1.date.toDays

/-- Lines 142-177: build the candidate for one description pattern
(`none` below 3 occurrences). -/
def mkCandidate (pat : String) (lst : List (Expense × ℚ)) :
    Option RecurringExpense :=
  if lst.length < 3 then none
  else
    match sortBy dateLe lst with
    | [] => none  -- unreachable: sorting preserves the length bound
    | first :: rest =>
        let amounts := (first :: rest).map Prod.snd
        let dates := (first :: rest).map (fun p => p.1.date)
        let ds := dates.map (fun d => (d.toDays : ℤ))
        let avg_frequency : ℚ :=
          if 1 < dates.length then
            sample_mean ((ds.zip ds.tail).map (fun p => ((p.2 - p.1 : ℤ) : ℚ)))
          else 30
        some
          { description_pattern := pat
            category := first.1.category
            average_amount := sample_mean amounts
            frequency_days := avg_frequency
            occurrences := (first :: rest).length
            total_amount := amounts.sum
            currency_code := first.1.currency_code
            last_occurrence := (rest.map (fun p => p.1.date)).getLastD
              first.1.date }

/-- `models.schemas.SubscriptionDetection` (analysed fields). -/
structure SubscriptionDetection where
  subscriptions : List RecurringExpense
  total_monthly_subscriptions : ℚ
  currency_code : String
deriving Repr

/-- `AdvancedAnalyzer.detect_subscriptions` (lines 107-200):
candidates with ≥3 occurrences, ranked by total amount descending;
candidates with frequency ≤ 35 days contribute their average amount to
the monthly subscriptions total. -/
def detect_subscriptions (u : Int) (expenses : List Expense) :
    SubscriptionDetection :=
  let subs := (subscription_groups u expenses).filterMap
    (fun g => mkCandidate g.1 g.2)
  let subs_sorted :=
    sortBy (fun a b => b.total_amount ≤ a.total_amount) subs
  let monthly_total := subs_sorted.foldl
    (fun acc s =>
      if s.frequency_days ≤ 35 then acc + s.average_amount else acc)
    0
  let currency_code :=
    match subs_sorted with
    | [] => "USD"
    | s :: _ => s.currency_code
  { subscriptions := subs_sorted
    total_monthly_subscriptions := monthly_total
    currency_code := currency_code }

/-- Three "Netflix Monthly Bill" expenses, $15 paid share each, dated
30 days apart (2024-01-01 → 2024-01-31 → 2024-03-01). -/
def scn9_expenses : List Expense :=
  [ { id := 601, group_id := none, description := "Netflix Monthly Bill"
      payment := false, cost := 15, currency_code := "USD"
      date := ⟨2024, 1, 1⟩, users := [uShare 1 "Me" "" 15 15]
      repayments := [], category := some "Entertainment"
      deleted_at := none },
    { id := 602, group_id := none, description := "Netflix Monthly Bill"
      payment := false, cost := 15, currency_code := "USD"
      date := ⟨2024, 1, 31⟩, users := [uShare 1 "Me" "" 15 15]
      repayments := [], category := some "Entertainment"
      deleted_at := none },
    { id := 603, group_id := none, description := "Netflix Monthly Bill"
      payment := false, cost := 15, currency_code := "USD"
      date := ⟨2024, 3, 1⟩, users := [uShare 1 "Me" "" 15 15]
      repayments := [], category := some "Entertainment"
      deleted_at := none } ]

/-- Claim C9: on three $15 "Netflix Monthly Bill" expenses 30 days
apart, `detect_subscriptions` reports exactly one recurring pattern,
with 3 occurrences, frequency exactly 30 days and average amount $15,
and that average is included in `total_monthly_subscriptions`
(30 ≤ 35 counts as monthly). -/
theorem netflix_subscription_detected :
    (detect_subscriptions 1 scn9_expenses).subscriptions.map
        (fun s => (s.description_pattern, s.occurrences, s.frequency_days,
          s.average_amount))
      = [("netflix monthly bill", 3, 30, 15)]
      ∧ (detect_subscriptions 1 scn9_expenses).total_monthly_subscriptions
        = 15 := by
  have hkey : pattern_key "Netflix Monthly Bill" = "netflix monthly bill" := by
    decide
  norm_num [detect_subscriptions, subscription_groups, mkCandidate, hkey,
    appendTo, sample_mean, sortBy, insertBy, dateLe, Date.toDays,
    scn9_expenses, uShare, List.foldl]

/-! ### Friction ranking (`src/analytics/advanced.py`,
`AdvancedAnalyzer.rank_friction`, lines 451-553)

`datetime.now(timezone.utc)` enters only through per-person delay
computation; it is passed in as `nowDays` (a day count). -/

/-- Per-group accumulator of `group_friction` (the `defaultdict` gives
fresh entries `{"name": "Unknown", "unpaid_balance": 0,
"member_count": 0, "expense_count": 0}`). -/
structure GroupMetrics where
  name : String
  unpaid_balance : ℚ
  member_count : ℕ
  expense_count : ℕ
deriving DecidableEq, Repr

/-- Fresh `group_friction[...]` entry. -/
def GroupMetrics.dflt : GroupMetrics := ⟨"Unknown", 0, 0, 0⟩

/-- `defaultdict` update: modify the entry at `k`, creating it from the
default first if absent. -/
def updGM (m : List (Int × GroupMetrics)) (k : Int)
    (f : GroupMetrics → GroupMetrics) : List (Int × GroupMetrics) :=
  match m with
  | [] => [(k, f GroupMetrics.dflt)]
  | (k', v) :: t => if k' = k then (k', f v) :: t else (k', v) :: updGM t k f

/-- Per-person accumulator of `person_friction` (the `dispute_count`
field is never read and is omitted). -/
structure PersonMetrics where
  unpaid_balance : ℚ
  delay_days : List ℤ
deriving DecidableEq, Repr

/-- `defaultdict` update for `person_friction`. -/
def updPM (m : List (Int × PersonMetrics)) (k : Int)
    (f : PersonMetrics → PersonMetrics) : List (Int × PersonMetrics) :=
  match m with
  | [] => [(k, f ⟨0, []⟩)]
  | (k', v) :: t => if k' = k then (k', f v) :: t else (k', v) :: updPM t k f

/-- One iteration of the expense loop (lines 487-514): group bookkeeping
then per-counterparty unpaid/delay accumulation.  Note the group's
`unpaid_balance` is never written. -/
def frictionStep (u : Int) (nowDays : ℤ) (groups : List Group)
    (st : List (Int × GroupMetrics) × List (Int × PersonMetrics))
    (e : Expense) :
    List (Int × GroupMetrics) × List (Int × PersonMetrics) :=
  let gid := e.group_id.getD 0
  let gm :=
    match groups.find? (fun g => g.id == gid) with
    | some g =>
        updGM st.1 gid
          (fun m => { m with name := g.name, member_count := g.members.length })
    | none => st.1
  let gm := updGM gm gid
    (fun m => { m with expense_count := m.expense_count + 1 })
  let pm := e.users.foldl
    (fun pm ud =>
      if ud.userId = some u then pm
      else
        match ud.userId with
        | none => pm  -- `.get("id")` miss: `user_id != current` then owed lookup
        | some uid =>
            if 0 < ud.owed_share then
              updPM pm uid
                (fun m =>
                  { unpaid_balance := m.unpaid_balance + ud.owed_share
                    delay_days := m.delay_days ++ [nowDays - (e.date.toDays : ℤ)] })
            else pm)
    st.2
  (gm, pm)

/-- One ranked `by_person` entry (lines 517-526). -/
structure PersonFrictionEntry where
  user_id : Int
  unpaid_balance : ℚ
  average_delay_days : ℚ
  friction_score : ℚ
deriving DecidableEq, Repr

/-- One ranked `by_group` entry (lines 530-540). -/
structure GroupFrictionEntry where
  group_id : Option Int
  name : String
  unpaid_balance : ℚ
  member_count : ℕ
  expense_count : ℕ
  friction_score : ℚ
deriving DecidableEq, Repr

/-- `models.schemas.FrictionRanking` (analysed fields). -/
structure FrictionRanking where
  by_person : List PersonFrictionEntry
  by_group : List GroupFrictionEntry
deriving Repr

/-- `AdvancedAnalyzer.rank_friction` (lines 451-553). -/
def rank_friction (u : Int) (nowDays : ℤ) (expenses : List Expense)
    (groups : List Group) : FrictionRanking :=
  let valid_expenses := expenses.filter (fun e => e.deleted_at.isNone)
  let st := valid_expenses.foldl (frictionStep u nowDays groups) ([], [])
  let by_person := st.2.map
    (fun p =>
      let avg_delay : ℚ :=
        if p.2.delay_days.isEmpty then 0
        else sample_mean (p.2.delay_days.map (fun d => (d : ℚ)))
      { user_id := p.1
        unpaid_balance := p.2.unpaid_balance
        average_delay_days := avg_delay
        friction_score := p.2.unpaid_balance + avg_delay * 10 })
  let by_group := st.1.map
    (fun p =>
      { group_id := if 0 < p.1 then some p.1 else none
        name := p.2.name
        unpaid_balance := p.2.unpaid_balance
        member_count := p.2.member_count
        expense_count := p.2.expense_count
        friction_score :=
          p.2.unpaid_balance + (p.2.expense_count : ℚ) * 5 })
  { by_person :=
      sortBy (fun a b => b.friction_score ≤ a.friction_score) by_person
    by_group :=
      sortBy (fun a b => b.friction_score ≤ a.friction_score) by_group }

theorem updGM_unpaid_zero (m : List (Int × GroupMetrics)) (k : Int)
    (f : GroupMetrics → GroupMetrics)
    (hf : ∀ g, (f g).unpaid_balance = g.unpaid_balance)
    (hm : ∀ p ∈ m, (p.2 : GroupMetrics).unpaid_balance = 0) :
    ∀ p ∈ updGM m k f, (p.2 : GroupMetrics).unpaid_balance = 0 := by
  induction m with
  | nil =>
      intro p hp
      simp only [updGM, List.mem_singleton] at hp
      rw [hp]
      simp [hf, GroupMetrics.dflt]
  | cons q t ih =>
      intro p hp
      obtain ⟨k', v⟩ := q
      simp only [updGM] at hp
      by_cases h : k' = k
      · rw [if_pos h] at hp
        rcases List.mem_cons.mp hp with rfl | hp
        · show (f v).unpaid_balance = 0
          rw [hf v]
          exact hm (k', v) (List.mem_cons_self _ _)
        · exact hm p (List.mem_cons_of_mem _ hp)
      · rw [if_neg h] at hp
        rcases List.mem_cons.mp hp with rfl | hp
        · exact hm _ (List.mem_cons_self _ _)
        · exact ih (fun r hr => hm r (List.mem_cons_of_mem _ hr)) p hp

theorem frictionStep_unpaid_zero (u : Int) (nowDays : ℤ)
    (groups : List Group)
    (st : List (Int × GroupMetrics) × List (Int × PersonMetrics))
    (e : Expense)
    (hm : ∀ p ∈ st.1, (p.2 : GroupMetrics).unpaid_balance = 0) :
    ∀ p ∈ (frictionStep u nowDays groups st e).1,
      (p.2 : GroupMetrics).unpaid_balance = 0 := by
  unfold frictionStep
  cases hfind : groups.find? (fun g => g.id == e.group_id.getD 0) with
  | none =>
      simp only [hfind]
      exact updGM_unpaid_zero _ _ _ (fun g => rfl) hm
  | some g =>
      simp only [hfind]
      exact updGM_unpaid_zero _ _ _ (fun g => rfl)
        (updGM_unpaid_zero _ _ _ (fun g => rfl) hm)

theorem foldl_frictionStep_unpaid_zero (u : Int) (nowDays : ℤ)
    (groups : List Group) (l : List Expense)
    (st : List (Int × GroupMetrics) × List (Int × PersonMetrics))
    (hm : ∀ p ∈ st.1, (p.2 : GroupMetrics).unpaid_balance = 0) :
    ∀ p ∈ (l.foldl (frictionStep u nowDays groups) st).1,
      (p.2 : GroupMetrics).unpaid_balance = 0 := by
  induction l generalizing st with
  | nil => exact hm
  | cons e t ih =>
      simp only [List.foldl_cons]
      exact ih _ (frictionStep_unpaid_zero u nowDays groups st e hm)

/-- Claim C10: every `by_group` entry of a friction ranking has zero
unpaid balance (no owed share is ever accumulated into the group
metrics), so each group's friction score is exactly 5 × its expense
count. -/
theorem group_friction_score_is_expense_count (u : Int) (nowDays : ℤ)
    (expenses : List Expense) (groups : List Group)
    (x : GroupFrictionEntry)
    (hx : x ∈ (rank_friction u nowDays expenses groups).by_group) :
    x.unpaid_balance = 0 ∧ x.friction_score = 5 * (x.expense_count : ℚ) := by
  unfold rank_friction at hx
  simp only [mem_sortBy, List.mem_map] at hx
  rcases hx with ⟨p, hp, rfl⟩
  have h0 := foldl_frictionStep_unpaid_zero u nowDays groups
    (expenses.filter (fun e => e.deleted_at.isNone)) ([], [])
    (by intro q hq; simp at hq) p hp
  constructor
  · exact h0
  · simp only [h0]
    ring

/-- One expense in group 7 with a counterparty owing $12. -/
def scn10_expense : Expense :=
  { id := 701, group_id := some 7, description := "Utilities"
    payment := false, cost := 24, currency_code := "USD"
    date := ⟨2024, 6, 1⟩
    users := [uShare 1 "Me" "" 24 12, uShare 2 "Cara" "C" 0 12]
    repayments := [], category := none, deleted_at := none }

/-- Witness for `group_friction_score_is_expense_count`: the single
group entry produced by `scn10_expense` (group 7, one expense, $12 of
counterparty debt accumulated only on the person side). -/
theorem group_friction_score_witness :
    (⟨some 7, "Unknown", 0, 0, 1, 5⟩ : GroupFrictionEntry)
        ∈ (rank_friction 1 19900 [scn10_expense] []).by_group
      ∧ (⟨some 7, "Unknown", 0, 0, 1, 5⟩ : GroupFrictionEntry).unpaid_balance
          = 0
      ∧ (⟨some 7, "Unknown", 0, 0, 1, 5⟩ : GroupFrictionEntry).friction_score
          = 5 * ((⟨some 7, "Unknown", 0, 0, 1, 5⟩ :
            GroupFrictionEntry).expense_count : ℚ) := by
  have hmem : (⟨some 7, "Unknown", 0, 0, 1, 5⟩ : GroupFrictionEntry)
      ∈ (rank_friction 1 19900 [scn10_expense] []).by_group := by
    norm_num [rank_friction, frictionStep, updGM, updPM, GroupMetrics.dflt,
      scn10_expense, uShare, sortBy, insertBy, List.foldl, sample_mean,
      Date.toDays]
  have h := group_friction_score_is_expense_count 1 19900 [scn10_expense] []
    (⟨some 7, "Unknown", 0, 0, 1, 5⟩ : GroupFrictionEntry) hmem
  exact ⟨hmem, h.1, h.2⟩

/-! ### Consistency verification (`src/validation/verifier.py`)

Every check function is a total function collecting structured entries;
nothing in the module raises.  The f-string error/warning messages are
embedded as constructors carrying the interpolated data; the
informational `checks` records are display-only reporting and are
omitted (`is_valid` depends only on `errors`, line 301). -/

/-- One entry of the verifier's `errors` list. -/
inductive VerifyError
  | expense_totals (expense_id : Int) (total_paid total_owed diff : ℚ)
  | group_balance (group_name : String) (total : ℚ)
  | settlement (expense_id : Int) (cost repayment_total : ℚ)
deriving DecidableEq, Repr

/-- One entry of the verifier's `warnings` list. -/
inductive VerifyWarning
  | currency (group_name : String) (currencies : List String)
deriving DecidableEq, Repr

/-- Sum of an expense's per-participant paid shares. -/
def paidSum (e : Expense) : ℚ := (e.users.map (fun ud => ud.paid_share)).sum

/-- Sum of an expense's per-participant owed shares. -/
def owedSum (e : Expense) : ℚ := (e.users.map (fun ud => ud.owed_share)).sum

/-- `DataVerifier.verify_expense_totals` (lines 24-66), errors
component: one entry per non-deleted expense whose paid and owed totals
differ by more than one cent. -/
def verify_expense_totals : List Expense → List VerifyError
  | [] => []
  | e :: rest =>
      (if e.deleted_at.isSome then []
       else if 1 / 100 < |paidSum e - owedSum e| then
         [.expense_totals e.id (paidSum e) (owedSum e)
           |paidSum e - owedSum e|]
       else []) ++ verify_expense_totals rest

/-- Nested `defaultdict` update
`group_balances[gid][uid] += v` (line 97). -/
def updNested (m : List (Int × List (Int × ℚ))) (g uid : Int) (v : ℚ) :
    List (Int × List (Int × ℚ)) :=
  match m with
  | [] => [(g, [(uid, v)])]
  | (g', um) :: t =>
      if g' = g then (g', addTo um uid v) :: t
      else (g', um) :: updNested t g uid v

/-- Lines 79-97: per-group per-user balances from non-deleted,
non-settlement expenses (entries with falsy user ids skipped). -/
def groupUserBalances (expenses : List Expense) :
    List (Int × List (Int × ℚ)) :=
  expenses.foldl
    (fun m e =>
      if e.deleted_at.isSome || e.payment then m
      else
        e.users.foldl
          (fun m ud =>
            match ud.userId with
            | none => m
            | some uid =>
                if uid = 0 then m  -- Python falsy check `if not user_id`
                else
                  updNested m (e.group_id.getD 0) uid
                    (ud.paid_share - ud.owed_share))
          m)
    []

/-- Group-name resolution used in error/warning messages (lines
105-107). -/
def resolveGroupName (groups : List Group) (gid : Int) : String :=
  match groups.find? (fun g => g.id == gid) with
  | some g => g.name
  | none => if 0 < gid then "Group " ++ toString gid else "No Group"

/-- `DataVerifier.verify_group_balances` (lines 68-121), errors
component. -/
def verify_group_balances (expenses : List Expense)
    (groups : List Group) : List VerifyError :=
  (groupUserBalances expenses).filterMap
    (fun p =>
      let total := valuesSum p.2
      if 1 / 100 < |total| then
        some (.group_balance (resolveGroupName groups p.1) total)
      else none)

/-- Loop body of `DataVerifier.verify_settlements` over
`settlement_expenses` (lines 135-156). -/
def verify_settlements_loop : List Expense → List VerifyError
  | [] => []
  | e :: rest =>
      (if e.deleted_at.isSome then []
       else
         let repayment_total := (e.repayments.map (fun r => r.amount)).sum
         if 1 / 100 < |e.cost - repayment_total| then
           [.settlement e.id e.cost repayment_total]
         else []) ++ verify_settlements_loop rest

/-- `DataVerifier.verify_settlements` (lines 123-158), errors
component. -/
def verify_settlements (expenses : List Expense) : List VerifyError :=
  verify_settlements_loop (expenses.filter (fun e => e.payment))

/-- `DataVerifier.verify_currency_consistency` (lines 160-199),
warnings component (`set(...)` of currencies embedded as `dedup`; only
its cardinality and elements are read). -/
def verify_currency_consistency (expenses : List Expense)
    (groups : List Group) : List VerifyWarning :=
  let group_expenses := expenses.foldl
    (fun m e =>
      if e.deleted_at.isSome then m
      else appendTo m (e.group_id.getD 0) e.currency_code)
    []
  group_expenses.filterMap
    (fun p =>
      let currencies := p.2.dedup
      if 1 < currencies.length then
        some (.currency (resolveGroupName groups p.1) currencies)
      else none)

/-- `DataVerifier.calculate_net_balance` (lines 201-225). -/
def calculate_net_balance (u : Int) (expenses : List Expense) : ℚ :=
  expenses.foldl
    (fun acc e =>
      if e.deleted_at.isSome then acc
      else
        e.users.foldl
          (fun acc ud =>
            if ud.userId = some u then
              acc + (ud.paid_share - ud.owed_share)
            else acc)
          acc)
    0

/-- `DataVerifier.verify_net_balance` (lines 227-262): informational
only — it always returns an empty errors list. -/
def verify_net_balance (u : Int) (expenses : List Expense) :
    List VerifyError :=
  let _ := calculate_net_balance u expenses + settlementAdjustment u expenses
  []

/-- `models.schemas.ValidationResult` (analysed fields). -/
structure ValidationResult where
  is_valid : Bool
  errors : List VerifyError
  warnings : List VerifyWarning
deriving Repr

/-- `DataVerifier.verify_all` (lines 264-308): concatenates every
check's errors and warnings; `is_valid` is `len(all_errors) == 0`. -/
def verify_all (u : Int) (expenses : List Expense) (groups : List Group) :
    ValidationResult :=
  let all_errors :=
    verify_expense_totals expenses
      ++ verify_group_balances expenses groups
      ++ verify_settlements expenses
      ++ verify_net_balance u expenses
  { is_valid := all_errors.isEmpty
    errors := all_errors
    warnings := verify_currency_consistency expenses groups }

theorem mem_verify_expense_totals (es : List Expense) (e : Expense)
    (he : e ∈ es) (hd : e.deleted_at = none)
    (hdiff : 1 / 100 < |paidSum e - owedSum e|) :
    VerifyError.expense_totals e.id (paidSum e) (owedSum e)
        |paidSum e - owedSum e|
      ∈ verify_expense_totals es := by
  induction es with
  | nil => cases he
  | cons a t ih =>
      rcases List.mem_cons.mp he with rfl | he
      · apply List.mem_append_left
        have hdiff' : (100 : ℚ)⁻¹ < |paidSum e - owedSum e| := by
          rw [← one_div]
          exact hdiff
        simp [verify_expense_totals, hd, hdiff']
      · exact List.mem_append_right _ (ih he)

/-- Claim C6: the verifier is a total function whose `is_valid` flag is
true exactly when the collected errors list is empty, and every
non-deleted expense whose paid and owed share totals differ by more
than one cent contributes a structured error entry rather than a
crash. -/
theorem verify_all_flags_mismatches (u : Int) (es : List Expense)
    (gs : List Group) :
    ((verify_all u es gs).is_valid = true ↔ (verify_all u es gs).errors = [])
      ∧ ∀ e ∈ es, e.deleted_at = none →
          1 / 100 < |paidSum e - owedSum e| →
          VerifyError.expense_totals e.id (paidSum e) (owedSum e)
              |paidSum e - owedSum e|
            ∈ (verify_all u es gs).errors := by
  constructor
  · simp [verify_all, List.isEmpty_iff]
  · intro e he hd hdiff
    unfold verify_all
    simp only []
    apply List.mem_append_left
    apply List.mem_append_left
    apply List.mem_append_left
    exact mem_verify_expense_totals es e he hd hdiff

/-- Expense whose paid total ($10) differs from its owed total ($0). -/
def scn6_bad : Expense :=
  { id := 801, group_id := none, description := "Mismatch"
    payment := false, cost := 10, currency_code := "USD"
    date := ⟨2024, 7, 1⟩
    users := [uShare 2 "Cara" "C" 10 0]
    repayments := [], category := none, deleted_at := none }

/-- Witness for `verify_all_flags_mismatches` on a $10 paid/owed
mismatch. -/
theorem verify_all_flags_mismatches_witness :
    scn6_bad.deleted_at = none
      ∧ 1 / 100 < |paidSum scn6_bad - owedSum scn6_bad|
      ∧ VerifyError.expense_totals scn6_bad.id (paidSum scn6_bad)
          (owedSum scn6_bad) |paidSum scn6_bad - owedSum scn6_bad|
        ∈ (verify_all 1 [scn6_bad] []).errors :=
  ⟨rfl, by norm_num [paidSum, owedSum, scn6_bad, uShare],
    (verify_all_flags_mismatches 1 [scn6_bad] []).2 scn6_bad
      (List.mem_singleton.mpr rfl) rfl
      (by norm_num [paidSum, owedSum, scn6_bad, uShare])⟩

end SplitSense
